import Mathlib

/-!
Verification of the country-entity normalization and classification component
of the data-preparation pipeline (step 02 cleaning, step 05 feature
engineering, and the country utilities).

The static tables `KEEP_ORIGINAL_NAMES` and `SIMPLE_COUNTRY_ALIASES` and the
functions `safe_standardize_country_name`, `standardize_country_column` and
`filter_aggregate_entities` are translated from `src/steps/step_02_cleaning.py`.
The aggregate predicate, the region map, the region-derivation and entity
validation helpers live in `src/utils/country.py`, which is absent from the
sources; those are modelled from the specification, as is the external
country-name authority (the `pycountry` data consumed from the environment).
-/

set_option maxRecDepth 4096

namespace CountryClassifier

/-- Countries/territories that should NOT be fuzzy-matched (keep original
names), from `KEEP_ORIGINAL_NAMES` in `src/steps/step_02_cleaning.py`. -/
def KEEP_ORIGINAL_NAMES : List String :=
  [ "Kosovo"
  , "Curacao"
  , "Curaçao"
  , "Taiwan"
  , "Hong Kong"
  , "Macao"
  , "Macau"
  , "Palestine"
  , "Western Sahara"
  , "Puerto Rico"
  , "Guam"
  , "American Samoa"
  , "British Virgin Islands"
  , "U.S. Virgin Islands"
  , "Faroe Islands"
  , "Greenland"
  , "New Caledonia"
  , "French Polynesia"
  , "Gibraltar"
  , "Bermuda"
  , "Cayman Islands"
  , "Aruba"
  , "Sint Maarten"
  , "Bonaire"
  , "Channel Islands"
  , "Isle of Man"
  , "Falkland Islands"
  , "Montserrat"
  , "Turks and Caicos Islands"
  , "Anguilla"
  , "Saint Helena"
  , "Wallis and Futuna"
  , "Saint Pierre and Miquelon"
  , "Cook Islands"
  , "Niue"
  , "Tokelau"
  , "Nauru" ]

/-- Simple aliases that should be mapped (without fuzzy matching), from
`SIMPLE_COUNTRY_ALIASES` in `src/steps/step_02_cleaning.py`. -/
def SIMPLE_COUNTRY_ALIASES : List (String × String) :=
  [ ("USA", "United States")
  , ("US", "United States")
  , ("U.S.", "United States")
  , ("U.S.A.", "United States")
  , ("United States of America", "United States")
  , ("UK", "United Kingdom")
  , ("U.K.", "United Kingdom")
  , ("Great Britain", "United Kingdom")
  , ("Britain", "United Kingdom")
  , ("Russia", "Russia")
  , ("South Korea", "South Korea")
  , ("North Korea", "North Korea")
  , ("Iran", "Iran")
  , ("Syria", "Syria")
  , ("Venezuela", "Venezuela")
  , ("Bolivia", "Bolivia")
  , ("Tanzania", "Tanzania")
  , ("Vietnam", "Vietnam")
  , ("Laos", "Laos")
  , ("Brunei", "Brunei")
  , ("Moldova", "Moldova")
  , ("Czech Republic", "Czechia")
  , ("Czechia", "Czechia")
  , ("Ivory Coast", "Cote d'Ivoire")
  , ("Côte d'Ivoire", "Cote d'Ivoire")
  , ("Cape Verde", "Cabo Verde")
  , ("Swaziland", "Eswatini")
  , ("Macedonia", "North Macedonia")
  , ("Burma", "Myanmar")
  , ("East Timor", "Timor-Leste")
  , ("Democratic Republic of Congo", "DR Congo")
  , ("Democratic Republic of the Congo", "DR Congo")
  , ("Congo, The Democratic Republic of the", "DR Congo")
  , ("DRC", "DR Congo")
  , ("Congo-Kinshasa", "DR Congo")
  , ("Republic of Congo", "Congo")
  , ("Congo-Brazzaville", "Congo")
  , ("Republic of the Congo", "Congo")
  , ("Vatican", "Vatican City")
  , ("Vatican City State", "Vatican City")
  , ("Holy See", "Vatican City")
  , ("Holy See (Vatican City State)", "Vatican City")
  , ("The Bahamas", "Bahamas")
  , ("The Gambia", "Gambia")
  , ("Federated States of Micronesia", "Micronesia")
  , ("Micronesia, Federated States of", "Micronesia") ]

/-- Leading and trailing whitespace removal, the embedding of Python
`str.strip()` (written over the character list so that it evaluates inside
the kernel). -/
def py_strip (s : String) : String :=
  ⟨((s.data.dropWhile Char.isWhitespace).reverse.dropWhile
      Char.isWhitespace).reverse⟩

/-- Lower-casing, the embedding of Python `str.lower()` (ASCII case folding
suffices for the ASCII pattern tables it is compared against). -/
def py_lower (s : String) : String :=
  ⟨s.data.map Char.toLower⟩

/-- The pattern `pat` occurs as a contiguous sublist of `l`. -/
def occursIn (pat : List Char) : List Char → Bool
  | [] => pat.isPrefixOf []
  | c :: t => pat.isPrefixOf (c :: t) || occursIn pat t

/-- Boolean substring test, the embedding of Python `pat in s`. -/
def str_contains (s pat : String) : Bool :=
  occursIn pat.data s.data

/-- Boolean suffix test, the embedding of Python `s.endswith(p)`. -/
def str_endsWith (s p : String) : Bool :=
  p.data.reverse.isPrefixOf s.data.reverse

/-- Modelled from the spec: the exact members of the `AggregateSet` of
`src/utils/country.py` (a file absent from the sources).  Section 3 of the
spec describes it as the known non-country entity names: continents, income
brackets, political unions and historical unions, naming "World", "Africa",
"European Union", "High income" and "USSR" explicitly. -/
def AGGREGATE_ENTITIES : List String :=
  [ "World"
  , "Africa"
  , "Asia"
  , "Europe"
  , "North America"
  , "South America"
  , "Oceania"
  , "European Union"
  , "High income"
  , "Upper middle income"
  , "Lower middle income"
  , "Low income"
  , "USSR" ]

/-- Modelled from the spec: substring patterns of the aggregate pattern list
(spec section 3: "contains `(excl.`"), matched case-insensitively. -/
def AGGREGATE_PATTERNS : List String := ["(excl."]

/-- Modelled from the spec: suffix patterns of the aggregate pattern list
(spec section 3: "ends with `income countries`"), matched case-insensitively. -/
def AGGREGATE_SUFFIXES : List String := ["income countries"]

/-- Modelled from the spec: `is_aggregate` of `src/utils/country.py` (absent
from the sources).  Spec section 4.1 step 3: exact match against the static
`AggregateSet`, or substring/pattern match against the aggregate pattern list
(case-insensitive). -/
def is_aggregate (name : String) : Bool :=
  AGGREGATE_ENTITIES.contains name
    || AGGREGATE_PATTERNS.any (fun p => str_contains (py_lower name) p)
    || AGGREGATE_SUFFIXES.any (fun p => str_endsWith (py_lower name) p)

/-- Modelled from the spec: one record of the static country-name authority
(the ISO 3166 list served by `pycountry`, consumed from the environment and
not part of the sources): a name, an optional common name, and an optional
ISO alpha-3 code. -/
structure AuthorityEntry where
  name : String
  common_name : Option String
  alpha3 : Option String
deriving DecidableEq, Repr

/-- Exact (name-keyed) lookup against the country-name authority, the
embedding of `pycountry.countries.get(name=name)` followed by
`getattr(country, "common_name", country.name)` in
`safe_standardize_country_name`. -/
def authority_exact_match (auth : List AuthorityEntry) (name : String) :
    Option String :=
  (auth.find? (fun e => e.name == name)).map
    (fun e => e.common_name.getD e.name)

/-- Exact key lookup in the alias table, the embedding of
`name in SIMPLE_COUNTRY_ALIASES` / `SIMPLE_COUNTRY_ALIASES[name]`. -/
def alias_lookup (name : String) : Option String :=
  (SIMPLE_COUNTRY_ALIASES.find? (fun p => p.1 == name)).map (fun p => p.2)

/-- Embedding of `safe_standardize_country_name` from
`src/steps/step_02_cleaning.py`, parameterized by the country-name authority.
The `if not name` guard of the source is the `name = ""` test (the input has
already been stringified by every caller); a NaN input never reaches the body
because the callers guard with `pd.notna`. -/
def safe_standardize_country_name (auth : List AuthorityEntry)
    (name : String) : String :=
  if name = "" then name
  else
    let t := py_strip name
    if KEEP_ORIGINAL_NAMES.contains t then t
    else if is_aggregate t then t
    else
      match alias_lookup t with
      | some v => v
      | none =>
        match authority_exact_match auth t with
        | some c => c
        | none => t

/-- The classification outcome of spec section 4.1: a name is an aggregate, a
country with a canonical name, or unrecognized (carrying the string the code
hands back for it). -/
inductive Classification where
  | aggregate : Classification
  | country : String → Classification
  | unrecognized : String → Classification
deriving DecidableEq, Repr

/-- The decision chain of `safe_standardize_country_name` with each exit
tagged by the classification outcome of spec section 4.1: empty input and the
no-match fallthrough are `unrecognized`, the keep-original, alias and
exact-authority exits are `country`, and the aggregate exit is `aggregate`.
The payload of each exit is exactly the string the source function returns
there (the trimmed name on the fallthrough, the original name when empty). -/
def classify (auth : List AuthorityEntry) (name : String) : Classification :=
  if name = "" then .unrecognized name
  else
    let t := py_strip name
    if KEEP_ORIGINAL_NAMES.contains t then .country t
    else if is_aggregate t then .aggregate
    else
      match alias_lookup t with
      | some v => .country v
      | none =>
        match authority_exact_match auth t with
        | some c => .country c
        | none => .unrecognized t

/-- Modelled from the spec: a stub/fixture instance of the static country-name
authority (spec section 9 directs deterministic testing with a fixture
authority in place of the live `pycountry` dependency).  Per the spec's
AliasTable invariant, canonical names produced by the alias table are
consistent with the authority, so the authority resolves each of them. -/
def PYCOUNTRY_AUTHORITY : List AuthorityEntry :=
  [ ⟨"France", none, some "FRA"⟩
  , ⟨"United States", none, some "USA"⟩
  , ⟨"Nigeria", none, some "NGA"⟩
  , ⟨"United Kingdom", none, some "GBR"⟩
  , ⟨"Germany", none, some "DEU"⟩
  , ⟨"Poland", none, some "POL"⟩
  , ⟨"Cote d'Ivoire", none, some "CIV"⟩
  , ⟨"Cabo Verde", none, some "CPV"⟩
  , ⟨"Eswatini", none, some "SWZ"⟩
  , ⟨"North Macedonia", none, some "MKD"⟩
  , ⟨"Myanmar", none, some "MMR"⟩
  , ⟨"Timor-Leste", none, some "TLS"⟩
  , ⟨"DR Congo", none, some "COD"⟩
  , ⟨"Congo", none, some "COG"⟩
  , ⟨"Vatican City", none, some "VAT"⟩
  , ⟨"Bahamas", none, some "BHS"⟩
  , ⟨"Gambia", none, some "GMB"⟩
  , ⟨"Micronesia", none, some "FSM"⟩
  , ⟨"Taiwan, Province of China", some "Taiwan", some "TWN"⟩
  , ⟨"Korea, Republic of", some "South Korea", some "KOR"⟩ ]

/-- A tabular dataset: named columns and rows of cells.  A cell is
`Option String`: `none` models a pandas NaN, `some s` a (stringified)
value, which is all the country-column routines distinguish. -/
structure DataFrame where
  columns : List String
  rows : List (List (Option String))
deriving DecidableEq, Repr

/-- The lower-cased column names accepted as the country column in
`standardize_country_column` and `filter_aggregate_entities`. -/
def COUNTRY_COLUMN_NAMES : List String := ["country", "entity", "country_name"]

/-- Index of the first column whose lower-cased name is a country-column
name, the embedding of the `for col in df.columns: if col.lower() in
["country", "entity", "country_name"]` loop. -/
def findCountryCol : List String → Option Nat
  | [] => none
  | c :: cs =>
    if COUNTRY_COLUMN_NAMES.contains (py_lower c) then some 0
    else (findCountryCol cs).map (· + 1)

/-- Apply `f` to the element at position `i` of a list, leaving every other
position unchanged. -/
def applyAt {α : Type} : Nat → (α → α) → List α → List α
  | _, _, [] => []
  | 0, f, x :: xs => f x :: xs
  | n + 1, f, x :: xs => x :: applyAt n f xs

/-- Embedding of `standardize_country_column` from
`src/steps/step_02_cleaning.py`: find the country column (first column whose
lower-cased name matches); if absent, return the frame unchanged; otherwise
apply `safe_standardize_country_name` to every non-NaN cell of that column
(`lambda x: safe_standardize_country_name(str(x)) if pd.notna(x) else x`).
The stats dict is abstracted to its `standardized` flag. -/
def standardize_country_column (auth : List AuthorityEntry)
    (df : DataFrame) : DataFrame × Bool :=
  match findCountryCol df.columns with
  | none => (df, false)
  | some i =>
    ({ df with
        rows := df.rows.map
          (applyAt i (Option.map (safe_standardize_country_name auth))) },
      true)

/-- Aggregate test on one cell of the country column, the embedding of
`lambda x: is_aggregate(str(x)) if pd.notna(x) else False`. -/
def cell_is_aggregate : Option String → Bool
  | some s => is_aggregate s
  | none => false

/-- Embedding of `filter_aggregate_entities` from
`src/steps/step_02_cleaning.py`: find the country column; if absent, return
the frame unchanged; otherwise drop every row whose country cell is an
aggregate.  The stats dict is abstracted to its `filtered` flag. -/
def filter_aggregate_entities (df : DataFrame) : DataFrame × Bool :=
  match findCountryCol df.columns with
  | none => (df, false)
  | some i =>
    ({ df with
        rows := df.rows.filter (fun r => !(cell_is_aggregate (r.getD i none))) },
      true)

/-- The outcome tag is `country`. -/
def isCountryOutcome : Classification → Bool
  | .country _ => true
  | _ => false

/-- The outcome tag is `aggregate`. -/
def isAggregateOutcome : Classification → Bool
  | .aggregate => true
  | _ => false

/-- The outcome tag is `unrecognized`. -/
def isUnrecognizedOutcome : Classification → Bool
  | .unrecognized _ => true
  | _ => false

/-- The three buckets and counts returned by `validateEntities`. -/
structure ValidationResult where
  valid : List String
  invalid : List String
  aggregates : List String
  valid_count : Nat
  invalid_count : Nat
  aggregate_count : Nat
deriving DecidableEq, Repr

/-- Modelled from the spec: `validateEntities` of section 4.1 (the entity
validation helper of `src/utils/country.py`, absent from the sources):
partition a list of (possibly duplicated) names into three buckets by the
outcome tag of `classify`, returning the lists and their counts.  Of the two
behaviours the spec allows, duplicates are retained, consistently in all
three buckets. -/
def validateEntities (auth : List AuthorityEntry) (names : List String) :
    ValidationResult :=
  let valid := names.filter (fun n => isCountryOutcome (classify auth n))
  let invalid := names.filter (fun n => isUnrecognizedOutcome (classify auth n))
  let aggs := names.filter (fun n => isAggregateOutcome (classify auth n))
  ⟨valid, invalid, aggs, valid.length, invalid.length, aggs.length⟩

/-- Modelled from the spec: the `RegionMap` of `src/utils/country.py` (absent
from the sources), an immutable mapping from ISO alpha-3 code to one of the
fixed region labels Africa, Asia, Europe, North America, South America,
Oceania.  The spec pins FRA to Europe, USA to North America and NGA to
Africa (end-to-end scenario 3). -/
def REGION_MAP : List (String × String) :=
  [ ("FRA", "Europe")
  , ("GBR", "Europe")
  , ("DEU", "Europe")
  , ("POL", "Europe")
  , ("USA", "North America")
  , ("NGA", "Africa")
  , ("CIV", "Africa")
  , ("TWN", "Asia")
  , ("KOR", "Asia") ]

/-- Modelled from the spec: `get_region`, lookup of an ISO alpha-3 code in
the `RegionMap`; codes absent from the map yield an absent region, not an
error. -/
def get_region (iso : String) : Option String :=
  (REGION_MAP.find? (fun p => p.1 == iso)).map (fun p => p.2)

/-- Modelled from the spec: the name-based fallback of `deriveRegionColumn`
(section 4.1): classify the name; for a country, derive the ISO code by exact
authority lookup on the canonical name (step 8) and map it through the
`RegionMap` (step 9); `aggregate` and `unrecognized` rows receive an absent
region. -/
def region_from_name (auth : List AuthorityEntry) (name : String) :
    Option String :=
  match classify auth name with
  | .country c =>
    match (auth.find? (fun e => e.name == c)).bind (fun e => e.alpha3) with
    | some code => get_region code
    | none => none
  | _ => none

/-- Modelled from the spec: the per-row work of `add_region_column` /
`deriveRegionColumn`: if an ISO value is supplied and non-empty, the region
comes directly from the `RegionMap` (fast path, no name classification);
otherwise it is derived from the name. -/
def derive_region_row (auth : List AuthorityEntry) (name : String)
    (iso : Option String) : Option String :=
  match iso with
  | some code => if code = "" then region_from_name auth name else get_region code
  | none => region_from_name auth name

/-- Modelled from the spec: `add_region_column` / `deriveRegionColumn` of
`src/utils/country.py` (absent from the sources), restricted to the two
columns it reads: each row carries the country name and the optional ISO
value, and receives its derived region. -/
def add_region_column (auth : List AuthorityEntry)
    (rows : List (String × Option String)) : List (Option String) :=
  rows.map (fun r => derive_region_row auth r.1 r.2)

/-- C1: in the decision order of `classify`, the aggregate-membership test
(exact `AggregateSet` match or case-insensitive pattern match) runs before
the alias, exact-canonical and fuzzy country matching: every trimmed input
name outside the keep-original set that matches an aggregate classifies as
`Aggregate` immediately, for every authority — even one in which the name
would also match a country. -/
theorem aggregate_priority_over_country_matching
    (auth : List AuthorityEntry) (name : String)
    (h1 : KEEP_ORIGINAL_NAMES.contains (py_strip name) = false)
    (h2 : is_aggregate (py_strip name) = true) :
    classify auth name = .aggregate := by
  by_cases hn : name = ""
  · subst hn
    exact absurd h2 (by decide)
  · simp only [classify, if_neg hn, h1, h2, Bool.false_eq_true, if_false, if_true]

/-- Witness for C1 at the aggregate name "High income". -/
theorem aggregate_priority_over_country_matching_witness :
    KEEP_ORIGINAL_NAMES.contains (py_strip "High income") = false ∧
    is_aggregate (py_strip "High income") = true ∧
    classify [] "High income" = .aggregate :=
  ⟨rfl, rfl, aggregate_priority_over_country_matching [] "High income" rfl rfl⟩

/-- C2: every name in the keep-original exception set classifies as
`Country` with the name itself as the canonical name, unchanged, for every
authority: neither the alias table, nor the exact authority lookup, nor any
fuzzy matching touches it. -/
theorem keep_original_names_unchanged
    (auth : List AuthorityEntry) (name : String)
    (h : name ∈ KEEP_ORIGINAL_NAMES) :
    classify auth name = .country name := by
  fin_cases h <;> rfl

/-- Witness for C2 at "Kosovo". -/
theorem keep_original_names_unchanged_witness :
    "Kosovo" ∈ KEEP_ORIGINAL_NAMES ∧
    classify [] "Kosovo" = .country "Kosovo" :=
  ⟨by decide, keep_original_names_unchanged [] "Kosovo" (by decide)⟩

/-- C3: every key of the alias table is neither in the keep-original set nor
an aggregate, and classifies (for every authority) as `Country` with exactly
the canonical name the table maps it to; in particular "USA" yields
"United States", "Côte d'Ivoire" and "Ivory Coast" yield the same canonical
name, and "Czech Republic" and "Czechia" yield the same canonical name. -/
theorem alias_table_mapping
    (auth : List AuthorityEntry) (p : String × String)
    (hp : p ∈ SIMPLE_COUNTRY_ALIASES) :
    KEEP_ORIGINAL_NAMES.contains p.1 = false ∧
    is_aggregate p.1 = false ∧
    classify auth p.1 = .country p.2 ∧
    classify auth "USA" = .country "United States" ∧
    classify auth "Côte d'Ivoire" = classify auth "Ivory Coast" ∧
    classify auth "Czech Republic" = classify auth "Czechia" := by
  refine ⟨?_, ?_, ?_, rfl, rfl, rfl⟩ <;> fin_cases hp <;> rfl

/-- Witness for C3 at the alias pair ("USA", "United States"). -/
theorem alias_table_mapping_witness :
    ("USA", "United States") ∈ SIMPLE_COUNTRY_ALIASES ∧
    classify [] "USA" = .country "United States" :=
  ⟨by decide, (alias_table_mapping [] ("USA", "United States") (by decide)).2.2.1⟩

/-- C7: `add_region_column` has an ISO fast path: a row whose ISO value is
supplied and non-empty takes its region directly from the `RegionMap` lookup
of the ISO code, for every authority and every name (so no name
classification is involved); and the ISO codes FRA, USA, NGA yield the
regions Europe, North America, Africa respectively. -/
theorem add_region_column_iso_fast_path
    (auth : List AuthorityEntry) (name code : String) (h : code ≠ "") :
    derive_region_row auth name (some code) = get_region code ∧
    add_region_column auth
        [("France", some "FRA"), ("United States", some "USA"),
         ("Nigeria", some "NGA")] =
      [some "Europe", some "North America", some "Africa"] := by
  refine ⟨?_, rfl⟩
  simp [derive_region_row, h]

/-- C4 counterexample: on the whitespace-only input `"   "` the classifier
hands back the trimmed empty string, not the original: the stored name of
the `Unrecognized` outcome (equivalently, the string
`safe_standardize_country_name` returns, which is what
`standardize_country_column` writes back into the frame) is `""`, which
differs from the original `"   "`. -/
theorem whitespace_original_not_preserved :
    safe_standardize_country_name PYCOUNTRY_AUTHORITY "   " = "" ∧
    classify PYCOUNTRY_AUTHORITY "   " = .unrecognized "" ∧
    ("" : String) ≠ "   " :=
  ⟨rfl, rfl, by decide⟩

/-- C4 (amended): the empty string and every whitespace-only string classify
as `Unrecognized`; the empty string is returned unchanged, but a
whitespace-only string is replaced by its trimmed (empty) form rather than
the original string. -/
theorem empty_and_whitespace_unrecognized (s : String)
    (h : py_strip s = "") :
    isUnrecognizedOutcome (classify PYCOUNTRY_AUTHORITY s) = true ∧
    safe_standardize_country_name PYCOUNTRY_AUTHORITY s =
      (if s = "" then s else "") ∧
    classify PYCOUNTRY_AUTHORITY s =
      .unrecognized (if s = "" then s else "") := by
  by_cases hs : s = ""
  · subst hs
    exact ⟨rfl, rfl, rfl⟩
  · refine ⟨?_, ?_, ?_⟩ <;>
      simp only [classify, safe_standardize_country_name, if_neg hs, h,
        isUnrecognizedOutcome] <;> rfl

/-- Witness for C4's amended theorem at the whitespace-only input `"   "`. -/
theorem empty_and_whitespace_unrecognized_witness :
    py_strip "   " = "" ∧
    safe_standardize_country_name PYCOUNTRY_AUTHORITY "   " =
      (if "   " = "" then "   " else "") :=
  ⟨rfl, (empty_and_whitespace_unrecognized "   " rfl).2.1⟩

/-- C5: classification is total: for every authority and every string
(including the empty, non-ASCII and arbitrarily long ones) `classify`
produces one of the three outcomes `aggregate`, `country` or `unrecognized`;
and when no branch matches (not kept-original, not an aggregate, no alias
hit, no exact authority hit) the outcome is `unrecognized`, never a
failure. -/
theorem classify_total (auth : List AuthorityEntry) (name : String) :
    (classify auth name = .aggregate ∨
      (∃ c, classify auth name = .country c) ∨
      (∃ o, classify auth name = .unrecognized o)) ∧
    (KEEP_ORIGINAL_NAMES.contains (py_strip name) = false →
      is_aggregate (py_strip name) = false →
      alias_lookup (py_strip name) = none →
      authority_exact_match auth (py_strip name) = none →
      ∃ o, classify auth name = .unrecognized o) := by
  constructor
  · cases h : classify auth name with
    | aggregate => exact Or.inl rfl
    | country c => exact Or.inr (Or.inl ⟨c, rfl⟩)
    | unrecognized o => exact Or.inr (Or.inr ⟨o, rfl⟩)
  · intro h1 h2 h3 h4
    by_cases hn : name = ""
    · exact ⟨name, by simp [classify, hn]⟩
    · have hmem : py_strip name ∉ KEEP_ORIGINAL_NAMES := by simpa using h1
      exact ⟨py_strip name, by simp [classify, hn, hmem, h2, h3, h4]⟩

/-- Witness for C5 at the unmatched name "Atlantis". -/
theorem classify_total_witness :
    KEEP_ORIGINAL_NAMES.contains (py_strip "Atlantis") = false ∧
    (∃ o, classify [] "Atlantis" = .unrecognized o) :=
  ⟨rfl, (classify_total [] "Atlantis").2 rfl rfl rfl rfl⟩

/-- Witness for C7 at the ISO code "FRA". -/
theorem add_region_column_iso_fast_path_witness :
    ("FRA" : String) ≠ "" ∧
    derive_region_row [] "France" (some "FRA") = get_region "FRA" :=
  ⟨by decide, (add_region_column_iso_fast_path [] "France" "FRA" (by decide)).1⟩

/-- C8: `validateEntities` partitions its input into three pairwise-disjoint
buckets by the outcome tag of `classify`, and the bucket sizes sum to the
length of the input list (duplicates retained, consistently for all
buckets). -/
theorem validateEntities_partition (auth : List AuthorityEntry)
    (names : List String) :
    (validateEntities auth names).valid.length +
        (validateEntities auth names).invalid.length +
        (validateEntities auth names).aggregates.length = names.length ∧
    (∀ n, n ∈ (validateEntities auth names).valid →
      n ∉ (validateEntities auth names).invalid) ∧
    (∀ n, n ∈ (validateEntities auth names).valid →
      n ∉ (validateEntities auth names).aggregates) ∧
    (∀ n, n ∈ (validateEntities auth names).invalid →
      n ∉ (validateEntities auth names).aggregates) ∧
    (validateEntities auth names).valid_count =
      (validateEntities auth names).valid.length ∧
    (validateEntities auth names).invalid_count =
      (validateEntities auth names).invalid.length ∧
    (validateEntities auth names).aggregate_count =
      (validateEntities auth names).aggregates.length := by
  dsimp only [validateEntities]
  refine ⟨?_, ?_, ?_, ?_, rfl, rfl, rfl⟩
  · induction names with
    | nil => rfl
    | cons a t ih =>
      simp only [List.filter_cons]
      cases h : classify auth a with
      | aggregate =>
        rw [
          if_neg (show ¬ isCountryOutcome Classification.aggregate = true by
            simp [isCountryOutcome]),
          if_neg (show ¬ isUnrecognizedOutcome Classification.aggregate = true by
            simp [isUnrecognizedOutcome]),
          if_pos (show isAggregateOutcome Classification.aggregate = true
            from rfl)]
        simp only [List.length_cons]
        omega
      | country c =>
        rw [
          if_pos (show isCountryOutcome (Classification.country c) = true
            from rfl),
          if_neg (show ¬ isUnrecognizedOutcome (Classification.country c) = true
            by simp [isUnrecognizedOutcome]),
          if_neg (show ¬ isAggregateOutcome (Classification.country c) = true
            by simp [isAggregateOutcome])]
        simp only [List.length_cons]
        omega
      | unrecognized o =>
        rw [
          if_neg (show ¬ isCountryOutcome (Classification.unrecognized o) = true
            by simp [isCountryOutcome]),
          if_pos (show isUnrecognizedOutcome (Classification.unrecognized o) =
            true from rfl),
          if_neg (show ¬ isAggregateOutcome (Classification.unrecognized o) =
            true by simp [isAggregateOutcome])]
        simp only [List.length_cons]
        omega
  all_goals
    intro n hn hn'
    have h1 := (List.mem_filter.mp hn).2
    have h2 := (List.mem_filter.mp hn').2
    cases h : classify auth n <;> rw [h] at h1 h2 <;>
      simp [isCountryOutcome, isUnrecognizedOutcome, isAggregateOutcome]
        at h1 h2

/-- Witness for C8 at a concrete list holding an aggregate, two countries
and an unknown name. -/
theorem validateEntities_partition_witness :
    (validateEntities [] ["World", "USA", "Atlantis", "France"]).valid.length +
        (validateEntities [] ["World", "USA", "Atlantis", "France"]).invalid.length +
        (validateEntities [] ["World", "USA", "Atlantis", "France"]).aggregates.length =
      (["World", "USA", "Atlantis", "France"] : List String).length :=
  (validateEntities_partition [] ["World", "USA", "Atlantis", "France"]).1

theorem findCountryCol_eq_none (cols : List String)
    (h : ∀ c ∈ cols, COUNTRY_COLUMN_NAMES.contains (py_lower c) = false) :
    findCountryCol cols = none := by
  induction cols with
  | nil => rfl
  | cons c cs ih =>
    have hc := h c (List.mem_cons_self c cs)
    have hcs := ih (fun x hx => h x (List.mem_cons_of_mem c hx))
    have hc' : py_lower c ∉ COUNTRY_COLUMN_NAMES := by simpa using hc
    simp [findCountryCol, hc', hcs]

/-- C9: on a frame with no column whose lower-cased name is country, entity
or country_name, both `standardize_country_column` and
`filter_aggregate_entities` return the frame unchanged together with a false
standardized/filtered flag (and, being total functions, raise nothing). -/
theorem no_country_column_identity (auth : List AuthorityEntry)
    (df : DataFrame)
    (h : ∀ c ∈ df.columns, COUNTRY_COLUMN_NAMES.contains (py_lower c) = false) :
    standardize_country_column auth df = (df, false) ∧
    filter_aggregate_entities df = (df, false) := by
  have hf : findCountryCol df.columns = none := findCountryCol_eq_none _ h
  constructor <;>
    simp [standardize_country_column, filter_aggregate_entities, hf]

/-- Witness for C9 at a frame whose columns are year and co2. -/
theorem no_country_column_identity_witness :
    (∀ c ∈ (DataFrame.mk ["year", "co2"] [[some "1990", some "5.0"]]).columns,
      COUNTRY_COLUMN_NAMES.contains (py_lower c) = false) ∧
    standardize_country_column []
        (DataFrame.mk ["year", "co2"] [[some "1990", some "5.0"]]) =
      (DataFrame.mk ["year", "co2"] [[some "1990", some "5.0"]], false) ∧
    filter_aggregate_entities
        (DataFrame.mk ["year", "co2"] [[some "1990", some "5.0"]]) =
      (DataFrame.mk ["year", "co2"] [[some "1990", some "5.0"]], false) :=
  ⟨by decide,
   (no_country_column_identity [] _ (by decide)).1,
   (no_country_column_identity [] _ (by decide)).2⟩

theorem applyAt_length {α : Type} (i : Nat) (f : α → α) (l : List α) :
    (applyAt i f l).length = l.length := by
  induction l generalizing i with
  | nil => cases i <;> rfl
  | cons x xs ih =>
    cases i with
    | zero => rfl
    | succ n => simp [applyAt, ih]

theorem applyAt_get?_ne {α : Type} (i j : Nat) (f : α → α) (l : List α)
    (h : j ≠ i) :
    (applyAt i f l).get? j = l.get? j := by
  induction l generalizing i j with
  | nil => cases i <;> rfl
  | cons x xs ih =>
    cases i with
    | zero =>
      cases j with
      | zero => exact absurd rfl h
      | succ m => rfl
    | succ n =>
      cases j with
      | zero => rfl
      | succ m =>
        simpa [applyAt] using ih n m (fun e => h (by omega))

theorem applyAt_get?_eq {α : Type} (i : Nat) (f : α → α) (l : List α) :
    (applyAt i f l).get? i = (l.get? i).map f := by
  induction l generalizing i with
  | nil => cases i <;> rfl
  | cons x xs ih =>
    cases i with
    | zero => rfl
    | succ n => simpa [applyAt] using ih n

/-- C10: `standardize_country_column` modifies only the detected country
column: on a frame whose country column is detected at index `i`, the result
has the same column names and the same number of rows; each row keeps its
length, every cell in a column other than `i` is identical to the input, and
a missing (NaN) country cell is also left unchanged. -/
theorem standardize_touches_only_country_column
    (auth : List AuthorityEntry) (df : DataFrame) (i : Nat)
    (h : findCountryCol df.columns = some i) :
    (standardize_country_column auth df).1.columns = df.columns ∧
    (standardize_country_column auth df).2 = true ∧
    (standardize_country_column auth df).1.rows.length = df.rows.length ∧
    (∀ k r, df.rows.get? k = some r →
      ∃ r', (standardize_country_column auth df).1.rows.get? k = some r' ∧
        r'.length = r.length ∧
        (∀ j, j ≠ i → r'.get? j = r.get? j) ∧
        (r.get? i = some none → r'.get? i = some none)) := by
  refine ⟨by simp [standardize_country_column, h],
    by simp [standardize_country_column, h],
    by simp [standardize_country_column, h], ?_⟩
  intro k r hk
  simp only [standardize_country_column, h]
  refine ⟨applyAt i (Option.map (safe_standardize_country_name auth)) r,
    ?_, applyAt_length i _ r, fun j hj => applyAt_get?_ne i j _ r hj, ?_⟩
  · rw [List.get?_eq_getElem?, List.getElem?_map, ← List.get?_eq_getElem?, hk]
    rfl
  · intro hna
    rw [applyAt_get?_eq, hna]
    rfl

/-- Witness for C10 at a two-column frame whose country column is detected
at index 0. -/
theorem standardize_touches_only_country_column_witness :
    findCountryCol ["country", "x"] = some 0 ∧
    (standardize_country_column []
        (DataFrame.mk ["country", "x"] [[some "USA", some "1"]])).1.columns =
      ["country", "x"] :=
  ⟨rfl,
   (standardize_touches_only_country_column []
      (DataFrame.mk ["country", "x"] [[some "USA", some "1"]]) 0 rfl).1⟩

theorem classify_country_shape (auth : List AuthorityEntry) (name c : String)
    (h : classify auth name = .country c) :
    c ∈ KEEP_ORIGINAL_NAMES ∨ (∃ p ∈ SIMPLE_COUNTRY_ALIASES, p.2 = c) ∨
      (∃ e ∈ auth, e.common_name.getD e.name = c) := by
  unfold classify at h
  by_cases hn : name = ""
  · rw [if_pos hn] at h
    exact absurd h (by simp)
  · rw [if_neg hn] at h
    simp only [] at h
    by_cases h1 : KEEP_ORIGINAL_NAMES.contains (py_strip name) = true
    · rw [if_pos h1] at h
      injection h with hc
      exact Or.inl (hc ▸ List.mem_of_elem_eq_true h1)
    · rw [if_neg h1] at h
      by_cases h2 : is_aggregate (py_strip name) = true
      · rw [if_pos h2] at h
        exact absurd h (by simp)
      · rw [if_neg h2] at h
        cases ha : alias_lookup (py_strip name) with
        | some v =>
          rw [ha] at h
          injection h with hc
          obtain ⟨p, hfind, hsnd⟩ :=
            Option.map_eq_some'.mp ha
          exact Or.inr (Or.inl ⟨p, List.mem_of_find?_eq_some hfind, hc ▸ hsnd⟩)
        | none =>
          rw [ha] at h
          cases hb : authority_exact_match auth (py_strip name) with
          | some c0 =>
            rw [hb] at h
            injection h with hc
            obtain ⟨e, hfind, hout⟩ := Option.map_eq_some'.mp hb
            exact Or.inr (Or.inr ⟨e, List.mem_of_find?_eq_some hfind,
              hc ▸ hout⟩)
          | none =>
            rw [hb] at h
            exact absurd h (by simp)

/-- C6: canonicalization is idempotent over the fixture authority: whenever
`classify` sends a name to `Country` with canonical name `c`, classifying
`c` again yields `Country` with the same canonical name, so every produced
canonical name is a fixed point of classification. -/
theorem classify_idempotent (name c : String)
    (h : classify PYCOUNTRY_AUTHORITY name = .country c) :
    classify PYCOUNTRY_AUTHORITY c = .country c := by
  rcases classify_country_shape _ _ _ h with hk | ⟨p, hp, hpc⟩ | ⟨e, he, hec⟩
  · exact keep_original_names_unchanged _ _ hk
  · subst hpc
    fin_cases hp <;> rfl
  · subst hec
    fin_cases he <;> rfl

/-- Witness for C6 at the alias "USA", whose canonical name is
"United States". -/
theorem classify_idempotent_witness :
    classify PYCOUNTRY_AUTHORITY "USA" = .country "United States" ∧
    classify PYCOUNTRY_AUTHORITY "United States" = .country "United States" :=
  ⟨rfl, classify_idempotent "USA" "United States" rfl⟩

end CountryClassifier
